import Mathlib

/-!
Verification of the sandboxed assertion-running harness
(`jsplatform/node/runWithAssertions.js`, with the error normalizers
`prettyPrintError` / `prettyPrintAssertionError` as defined in the
repository's legacy variant of the same runner, which is the version of
`utils` the runner imports).

Shallow embedding conventions:

* Strings manipulated by the harness (assertion text, generated program
  text) are Lean `String`s; the string-level operations the source uses
  (`String.prototype.replace` with a string pattern, substring search,
  the location-rewriting regex replace of `prettyPrintError`) are
  re-implemented below on `List Char`.
* A thrown JavaScript value is modelled by `Thrown`: whether it is an
  `instanceof` of the harness-bound `AssertionError`, its `stack`
  property (absent for thrown primitives; a present stack string is
  represented by its list of "\n"-separated lines, which is the only way
  the source ever consumes it), and its `expected` / `actual` properties.
* JavaScript functions that can throw are modelled with `Except`:
  `Except.error` marks a raised exception.
* The behaviour of the (adversarial, opaque) user code and of each
  assertion expression inside the VM is a parameter of the model: a
  `RunSpec` records whether the user's top level throws, whether the user
  froze the output array, and an evaluation oracle
  `eval : σ → String → σ × Option Thrown` giving, in each sandbox state,
  the result of evaluating an expression text (`none` = normal
  completion, `some t` = raised `t`).  The harness's own generated code
  (record construction, try/catch, appending, tamper check, outcome
  classification) is embedded explicitly.
-/

namespace JsHarness

/-! ## Generic string machinery -/

/-- Does the second list start with the first? -/
def startsWithL : List Char → List Char → Bool
  | [], _ => true
  | _ :: _, [] => false
  | p :: ps, c :: cs => p == c && startsWithL ps cs

/-- Does the second list contain the first as a contiguous sublist? -/
def containsSubL (pat : List Char) : List Char → Bool
  | [] => startsWithL pat []
  | c :: cs => startsWithL pat (c :: cs) || containsSubL pat cs

/-- Does `s` contain `pat` as a substring? (Model of a JavaScript
substring search, used both for `String.prototype.replace` with a string
pattern and for `String.prototype.match` with the fixed timeout
pattern.) -/
def containsSub (s pat : String) : Bool := containsSubL pat.data s.data

/-- Replace the first occurrence of `pat` by `rep`; the remainder of the
string is left untouched.  This is the semantics of JavaScript
`s.replace(pat, rep)` when `pat` is a plain string and `rep` contains no
dollar patterns (the harness's replacement is a freshly generated
alphanumeric identifier, so it contains none). -/
def replaceFirstL (pat rep : List Char) : List Char → List Char
  | [] => if pat.isEmpty then rep else []
  | c :: cs =>
    if startsWithL pat (c :: cs) then rep ++ List.drop pat.length (c :: cs)
    else c :: replaceFirstL pat rep cs

/-- String-level wrapper for `replaceFirstL`. -/
def replaceFirst (s pat rep : String) : String :=
  String.mk (replaceFirstL pat.data rep.data s.data)

/-! ## The location-rewriting regex of `prettyPrintError`

`prettyPrintError` rewrites the first stack-frame line with
`.replace(/(.*):(\d+):(\d+)/g, (a,b,c,d) => "on line " + (parseInt(c)-1) + ", at position " + d)`.
Since `(.*)` is greedy and can be empty, a match (when one exists) always
starts at the scan position and its `:(\d+):(\d+)` part starts at the
last position of the line where a colon is followed by a digit run,
another colon and another digit run; the prefix captured by `(.*)` is
discarded by the replacement function. -/

/-- Split a character list into its maximal leading digit run and the
rest. -/
def digitSplit : List Char → List Char × List Char
  | [] => ([], [])
  | c :: cs =>
    if c.isDigit then
      let p := digitSplit cs
      (c :: p.1, p.2)
    else ([], c :: cs)

/-- Numeric value of a digit run (the behaviour of `parseInt` on a
nonempty all-digit string). -/
def digitsVal (l : List Char) : Nat :=
  l.foldl (fun acc c => acc * 10 + (c.toNat - 48)) 0

/-- The colon character. -/
def colonChar : Char := Char.ofNat 58

/-- If the list starts with `:<digits>:<digits>`, return the two digit
runs and the remainder after them. -/
def siteEnd : List Char → Option (List Char × List Char × List Char)
  | [] => none
  | c0 :: l1 =>
    if c0 == colonChar then
      let p := digitSplit l1
      if p.1.isEmpty then none
      else
        match p.2 with
        | [] => none
        | c1 :: l3 =>
          if c1 == colonChar then
            let q := digitSplit l3
            if q.1.isEmpty then none else some (p.1, q.1, q.2)
          else none
    else none

/-- The `:<digits>:<digits>` site starting at the latest possible
position (the one the greedy `(.*)` selects). -/
def lastSite : List Char → Option (List Char × List Char × List Char)
  | [] => none
  | c :: cs =>
    match lastSite cs with
    | some r => some r
    | none => siteEnd (c :: cs)

/-- The replacement text produced by the regex callback: the captured
prefix is discarded, `parseInt(line)-1` and the column are kept. -/
def locReplacement (cds dds : List Char) : List Char :=
  ("on line ").data ++ (toString ((digitsVal cds : Int) - 1)).data
    ++ (", at position ").data ++ dds

/-- Global regex replace, fuelled (each match consumes at least four
characters, so `l.length` fuel is always enough). -/
def jsLocReplaceFuel : Nat → List Char → List Char
  | 0, l => l
  | fuel + 1, l =>
    match lastSite l with
    | none => l
    | some (cds, dds, rest) => locReplacement cds dds ++ jsLocReplaceFuel fuel rest

/-- The formatted stack-frame line (`errStackLineFormatted` in the
source). -/
def prettyLine (s : String) : String :=
  String.mk (jsLocReplaceFuel s.data.length s.data)

/-! ## Model of `JSON.stringify` on the values the harness prints

This models the platform's `JSON.stringify` (not repository code)
restricted to acyclic data without exotic objects: `undefined` serializes
to no value (JavaScript returns the value `undefined`, not a string),
arrays render element-wise with `undefined` elements as `null`, objects
drop `undefined`-valued fields.  Control-character escaping inside
strings is not modelled; quotes and backslashes are escaped. -/

inductive JsValue where
  | undef : JsValue
  | nul : JsValue
  | jbool : Bool → JsValue
  | jnum : Int → JsValue
  | jstr : String → JsValue
  | jarr : List JsValue → JsValue
  | jobj : List (String × JsValue) → JsValue

/-- The double-quote character. -/
def quoteChar : Char := Char.ofNat 34

/-- The backslash character. -/
def backslashChar : Char := Char.ofNat 92

/-- The backtick character. -/
def backtickChar : Char := Char.ofNat 96

/-- JSON string escaping for quotes and backslashes. -/
def jsonEscape (s : String) : String :=
  String.mk (s.data.foldr
    (fun c acc =>
      if c == quoteChar || c == backslashChar then backslashChar :: c :: acc
      else c :: acc) [])

/-- A JSON string literal. -/
def jsonQuote (s : String) : String :=
  String.mk [quoteChar] ++ jsonEscape s ++ String.mk [quoteChar]

mutual

def jsonStringify : JsValue → Option String
  | JsValue.undef => none
  | JsValue.nul => some ("null")
  | JsValue.jbool b => some (if b then ("true") else ("false"))
  | JsValue.jnum n => some (toString n)
  | JsValue.jstr s => some (jsonQuote s)
  | JsValue.jarr xs => some ("[" ++ jsonArrItems xs ++ "]")
  | JsValue.jobj fs => some ("\x7b" ++ jsonObjItems fs ++ "\x7d")

def jsonArrItems : List JsValue → String
  | [] => ""
  | x :: rest =>
    ((jsonStringify x).getD ("null"))
      ++ (if rest.isEmpty then "" else "," ++ jsonArrItems rest)

def jsonObjItems : List (String × JsValue) → String
  | [] => ""
  | (k, v) :: rest =>
    match jsonStringify v with
    | none => jsonObjItems rest
    | some sv =>
      let item := jsonQuote k ++ ":" ++ sv
      let restS := jsonObjItems rest
      if restS.isEmpty then item else item ++ "," ++ restS

end

/-- Value of the JavaScript expression `"" + JSON.stringify(v)`:
string concatenation coerces the `undefined` result to the text
`undefined`. -/
def jsonConcat (v : JsValue) : String := (jsonStringify v).getD ("undefined")

/-! ## Thrown values and the error normalizers -/

/-- A JavaScript value reaching a `catch`.  `isAssertErr` is
`e instanceof AssertionError` for the harness-bound constructor;
`stack` is the `stack` property: `none` when the thrown value has no
string `stack` (a thrown primitive, or an object without one), otherwise
the list of lines of the stack string (how `split("\n")` decomposes it —
a real string always yields at least one line); `expected` / `actual`
are the correspondingly named properties (`undefined` when absent). -/
structure Thrown where
  isAssertErr : Bool
  stack : Option (List String)
  expected : JsValue
  actual : JsValue

/-- The fixed pattern of the timeout test
`errMsg.match(/Script execution timed out after/g)`. -/
def timeoutMarker : String := "Script execution timed out after"

/-- Model of `prettyPrintError(e)`, which reads only `e.stack`.
The source destructures `const [errMsg, errStackLine] = e.stack.split("\n")`
and then unconditionally evaluates `errStackLine.replace(...)`, so the
function itself raises a `TypeError` (modelled by `Except.error ()`)
when the thrown value has no string stack, or when the stack has no
second line (`errStackLine` is then `undefined`). -/
def prettyPrintError : Option (List String) → Except Unit String
  | none => Except.error ()
  | some [] => Except.error ()
  | some (_ :: []) => Except.error ()
  | some (errMsg :: errStackLine :: _) =>
    Except.ok (errMsg ++
      (if containsSub errMsg timeoutMarker then "" else " " ++ prettyLine errStackLine))

/-- Model of `prettyPrintAssertionError(e)`: first stack line, then the
JSON renderings of `e.expected` and `e.actual`.  It raises (models the
`TypeError` of `undefined.split`) exactly when the thrown value has no
string stack. -/
def prettyPrintAssertionError (t : Thrown) : Except Unit String :=
  match t.stack with
  | none => Except.error ()
  | some [] => Except.error ()
  | some (errMsg :: _) =>
    Except.ok (errMsg ++ " expected value " ++ jsonConcat t.expected
      ++ ", but got " ++ jsonConcat t.actual)

/-! ## Assertions, outcome records, and the generated program text -/

/-- One input assertion record (`{id, assertion, is_public}` as parsed
from `process.argv[3]`). -/
structure Assertion where
  id : Int
  assertion : String
  is_public : Bool
deriving DecidableEq

/-- One outcome record as built by a generated fragment. -/
structure TestDetails where
  id : Int
  assertion : String
  is_public : Bool
  passed : Bool
  error : Option String
deriving DecidableEq

/-- Modelled from the spec: `utils.escapeBackTicks` is imported by the
runner but its source file is not part of the provided sources.  Per the
spec (§4.3) the assertion text is "escaped so embedding is syntactically
safe even if `expression` contains the program's own string delimiters";
we model it as prefixing every backtick with a backslash. -/
def escapeBackTicks (s : String) : String :=
  String.mk (s.data.foldr
    (fun c acc => if c == backtickChar then backslashChar :: c :: acc else c :: acc)
    [])

/-- The transformed assertion text inlined into the fragment:
`a.assertion.replace("assert", assertIdentifier)` — a plain-string
`replace`, so only the first occurrence of `assert` is rewritten. -/
def transformAssertion (ident text : String) : String :=
  replaceFirst text ("assert") ident

/-- JavaScript rendering of a boolean interpolated into a template
literal. -/
def boolText (b : Bool) : String := if b then ("true") else ("false")

/-- Fixed pieces of the fragment template (the harness-owned source
text between the interpolations), in order. -/
def fragP1 : String := "\n      "
def fragP2 : String := " = \x7bid: "
def fragP3 : String := ", assertion: `"
def fragP4 : String := "`, is_public: "
def fragP5 : String := "\x7d\n        try \x7b\n            "
def fragP6 : String := " // run the assertion\n            "
def fragP7 : String := ".passed = true // if no exception is thrown, the test case passed\n        \x7d catch(e) \x7b\n            "
def fragP8 : String := ".passed = false\n            if(e instanceof "
def fragP9 : String := ") \x7b\n                "
def fragP10 : String := ".error = prettyPrintAssertionError(e)\n            \x7d else \x7b\n                "
def fragP11 : String := ".error = prettyPrintError(e)\n            \x7d\n        \x7d\n        "
def fragP12 : String := " // push test case results\n    "
def fragPBracket : String := "["
def fragPLength : String := ".length] = "

/-- All harness-owned literal pieces of the fragment template. -/
def fragLiteralPieces : List String :=
  [fragP1, fragP2, fragP3, fragP4, fragP5, fragP6, fragP7, fragP8, fragP9,
   fragP10, fragP11, fragP12, fragPBracket, fragPLength]

/-- The fragment's final statement: the outcome record is appended by
direct index assignment, `out[out.length] = rec`. -/
def appendStmtText (outId objId : String) : String :=
  outId ++ fragPBracket ++ outId ++ fragPLength ++ objId

/-- Everything of one generated fragment before the appending
statement. -/
def fragHead (objId aErrId ident : String) (a : Assertion) : String :=
  fragP1 ++ objId ++ fragP2 ++ toString a.id ++ fragP3
    ++ escapeBackTicks a.assertion ++ fragP4 ++ boolText a.is_public ++ fragP5
    ++ transformAssertion ident a.assertion ++ fragP6 ++ objId ++ fragP7
    ++ objId ++ fragP8 ++ aErrId ++ fragP9 ++ objId ++ fragP10 ++ objId ++ fragP11

/-- The full text of one generated try/catch fragment (the value of the
template literal in the `assertions.map` callback). -/
def assertionFragmentText (outId objId aErrId ident : String) (a : Assertion) : String :=
  fragHead objId aErrId ident a ++ (appendStmtText outId objId ++ fragP12)

/-- `assertionString`: the fragments concatenated in input order
(`.map(...).reduce((a, b) => a + b, "")`). -/
def assertionString (outId objId aErrId ident : String) (as : List Assertion) : String :=
  (as.map (assertionFragmentText outId objId aErrId ident)).foldl (· ++ ·) ""

/-- The assembled program text (`runnableProgram` in the source). -/
def runnableProgram (outId objId aErrId ident userCode : String)
    (as : List Assertion) : String :=
  "const " ++ outId ++ " = [];\n" ++ userCode
    ++ "\n// USER CODE ENDS HERE\nif(Object.isFrozen(" ++ outId
    ++ ")) \x7b\n    // abort if user intentionally froze the output array\n    throw new Error(\"Internal error\")\n\x7d\n// inline assertions\n"
    ++ assertionString outId objId aErrId ident as
    ++ "\n// output outcome object to console\n" ++ outId

/-! ## Semantics of the assembled program -/

/-- The wall-clock budget handed to the VM (`const timeout = 1000`). -/
def timeout : Nat := 1000

/-- First stack line of the tamper-check error
`throw new Error("Internal error")`. -/
def internalErrorMsg : String := "Error: Internal error"

/-- The exception raised by the tamper check, with the (engine-supplied)
stack-frame lines below its fixed first line. -/
def tamperThrown (frames : List String) : Thrown :=
  { isAssertErr := false, stack := some (internalErrorMsg :: frames),
    expected := JsValue.undef, actual := JsValue.undef }

/-- Modelled from the spec: the sandbox library (`vm2`) is not part of
the provided sources; per the spec (§4.5, §8) exceeding the budget
raises an error whose message is `Script execution timed out after
<budget>ms`, so its stack's first line is the following. -/
def timeoutMsgLine : String :=
  "Error: Script execution timed out after " ++ toString timeout ++ "ms"

/-- Modelled from the spec: the timeout exception raised by the
sandboxed executor, with engine-supplied stack-frame lines. -/
def timeoutThrown (frames : List String) : Thrown :=
  { isAssertErr := false, stack := some (timeoutMsgLine :: frames),
    expected := JsValue.undef, actual := JsValue.undef }

/-- Semantics of the appending statement `out[out.length] = rec`
executed in a sandbox whose `Array.prototype.push` the user may have
replaced by `pushImpl`: index assignment at the current length never
consults the prototype, so the result is a plain append, for every
`pushImpl`. -/
def appendStmtSem (pushImpl : List TestDetails → TestDetails → List TestDetails)
    (out : List TestDetails) (r : TestDetails) : List TestDetails :=
  out ++ [r]

/-- The append the generated fragments actually perform. -/
def indexAppend (out : List TestDetails) (r : TestDetails) : List TestDetails :=
  out ++ [r]

/-- Run of one generated fragment from sandbox state `s`: evaluate the
transformed assertion text; on normal completion record `passed: true`;
on an exception record `passed: false` with the normalized message —
unless the normalizer itself throws, in which case the raised
`TypeError` (`nf`) escapes the fragment's `catch` and aborts the whole
program. -/
def fragmentResult {σ : Type} (eval : σ → String → σ × Option Thrown) (nf : Thrown)
    (ident : String) (s : σ) (a : Assertion) : Except Thrown (σ × TestDetails) :=
  match eval s (transformAssertion ident a.assertion) with
  | (s', none) =>
    Except.ok (s',
      { id := a.id, assertion := a.assertion, is_public := a.is_public,
        passed := true, error := none })
  | (s', some t) =>
    match (if t.isAssertErr then prettyPrintAssertionError t else prettyPrintError t.stack) with
    | Except.ok msg =>
      Except.ok (s',
        { id := a.id, assertion := a.assertion, is_public := a.is_public,
          passed := false, error := some msg })
    | Except.error _ => Except.error nf

/-- The `passed` field recorded for one assertion (`none` when the
fragment aborts the program instead of recording an outcome). -/
def fragmentPassed {σ : Type} (eval : σ → String → σ × Option Thrown) (nf : Thrown)
    (ident : String) (s : σ) (a : Assertion) : Option Bool :=
  match fragmentResult eval nf ident s a with
  | Except.ok p => some p.2.passed
  | Except.error _ => none

/-- Sequential run of the generated fragments, appending each outcome
record to the output array `out` by index assignment. -/
def runFragments {σ : Type} (eval : σ → String → σ × Option Thrown) (nf : Thrown)
    (ident : String) : σ → List TestDetails → List Assertion →
    Except Thrown (σ × List TestDetails)
  | s, out, [] => Except.ok (s, out)
  | s, out, a :: rest =>
    match fragmentResult eval nf ident s a with
    | Except.error t => Except.error t
    | Except.ok p => runFragments eval nf ident p.1 (indexAppend out p.2) rest

/-- Behaviour of one invocation's sandboxed run, as far as the harness
can observe it.  `throws` is the exception (if any) with which the run
aborts before the tamper check — a user top-level throw, or the
executor's timeout; `freezesOutput` is `Object.isFrozen` of the output
array after the user code ran; `normFail` is the `TypeError` raised
inside a fragment's catch block when a normalizer throws; `eval` is the
evaluation oracle for assertion texts starting from `initState`. -/
structure RunSpec (σ : Type) where
  throws : Option Thrown
  freezesOutput : Bool
  tamperFrames : List String
  normFail : Thrown
  initState : σ
  eval : σ → String → σ × Option Thrown

/-- Value of `safeVm.run(runnableProgram)`: the thrown exception, or the
output array (the program's final expression). -/
def runProgram {σ : Type} (rs : RunSpec σ) (ident : String) (as : List Assertion) :
    Except Thrown (List TestDetails) :=
  match rs.throws with
  | some t => Except.error t
  | none =>
    if rs.freezesOutput then Except.error (tamperThrown rs.tamperFrames)
    else Except.map (fun p => p.2) (runFragments rs.eval rs.normFail ident rs.initState [] as)

/-- Boundary contract of the front-end compiler (`tsToJs`), supplied to
the invocation as data. -/
structure CompilationResult where
  compilationErrors : List String
  compiledCode : String

/-- The single JSON value printed by the harness: at most one of the
three fields is populated. -/
structure Output where
  compilation_errors : Option (List String)
  error : Option String
  tests : Option (List TestDetails)
deriving DecidableEq

/-- Number of populated fields of an output value. -/
def shapeCount (o : Output) : Nat :=
  (if o.compilation_errors.isSome then 1 else 0)
    + (if o.error.isSome then 1 else 0)
    + (if o.tests.isSome then 1 else 0)

/-- One whole invocation: compile unless `useJs`; report compilation
errors if any; otherwise run the assembled program and classify.  The
result is `none` when the harness prints no structured value at all:
that happens exactly when the outer `catch` applies `prettyPrintError`
to an escaped exception and the normalizer itself throws — the process
then dies with an unhandled exception before any `console.log`. -/
def harnessOutput {σ : Type} (useJs : Bool) (comp : CompilationResult)
    (rs : RunSpec σ) (ident : String) (as : List Assertion) : Option Output :=
  if !useJs && !comp.compilationErrors.isEmpty then
    some { compilation_errors := some comp.compilationErrors, error := none, tests := none }
  else
    match runProgram rs ident as with
    | Except.ok ts => some { compilation_errors := none, error := none, tests := some ts }
    | Except.error t =>
      match prettyPrintError t.stack with
      | Except.ok msg => some { compilation_errors := none, error := some msg, tests := none }
      | Except.error _ => none

/-! ## Interference model for the isolation claims -/

/-- Two evaluation oracles model the same user submission up to an
interference that can only influence expressions whose text still
refers to the commonly-known library name: they agree on every
expression text that does not contain `assert`. -/
def EvalAgrees {σ : Type} (e1 e2 : σ → String → σ × Option Thrown) : Prop :=
  ∀ (s : σ) (t : String), containsSub t ("assert") = false → e1 s t = e2 s t

/-- Claim C3 as stated: under any interference touching only the
library name, every assertion's recorded `passed` outcome is unchanged,
for every assertion and every harness identifier free of `assert`. -/
def IsolationClaim : Prop :=
  ∀ (σ : Type) (e1 e2 : σ → String → σ × Option Thrown), EvalAgrees e1 e2 →
    ∀ (nf : Thrown) (ident : String), containsSub ident ("assert") = false →
      ∀ (s : σ) (a : Assertion),
        fragmentPassed e1 nf ident s a = fragmentPassed e2 nf ident s a

/-! ## Concrete values used by witnesses and counterexamples -/

/-- A thrown primitive (for instance `throw 42`): no `stack` property. -/
def stacklessThrown : Thrown :=
  { isAssertErr := false, stack := none, expected := JsValue.undef, actual := JsValue.undef }

/-- A `ReferenceError` as raised when a residual occurrence of `assert`
is evaluated in a sandbox that binds no such name. -/
def refErrThrown : Thrown :=
  { isAssertErr := false,
    stack := some ["ReferenceError: assert is not defined", "    at vm.js:5:1"],
    expected := JsValue.undef, actual := JsValue.undef }

/-- Oracle of the uninterfered submission: any expression still
mentioning `assert` hits the unbound name and raises; others complete. -/
def evalClean : Unit → String → Unit × Option Thrown :=
  fun _ t => ((), if containsSub t ("assert") then some refErrThrown else none)

/-- Oracle of the interfered submission: the user pre-defined a
non-throwing `assert` stub, so every expression completes normally. -/
def evalShadowed : Unit → String → Unit × Option Thrown :=
  fun _ _ => ((), none)

/-- An assertion mentioning `assert` twice; the harness rewrites only
the first occurrence. -/
def cexAssertion : Assertion :=
  { id := 1, assertion := "assert.ok(true);assert.ok(true)", is_public := true }

/-- An ordinary assertion mentioning `assert` once. -/
def okAssertion : Assertion :=
  { id := 1, assertion := "assert.ok(max(1,2) == 2)", is_public := true }

/-- A second ordinary assertion. -/
def okAssertion2 : Assertion :=
  { id := 2, assertion := "assert.ok(max(0,3) == 3)", is_public := false }

/-- A successful front-end compilation. -/
def demoComp : CompilationResult := { compilationErrors := [], compiledCode := "" }

/-- A run whose user code ran fine and whose assertions all pass. -/
def demoRun : RunSpec Unit :=
  { throws := none, freezesOutput := false, tamperFrames := ["    at vm.js:3:5"],
    normFail := stacklessThrown, initState := (),
    eval := fun s _ => (s, none) }

/-- A run in which the user's top level threw a primitive value. -/
def crashRun : RunSpec Unit :=
  { throws := some stacklessThrown, freezesOutput := false, tamperFrames := [],
    normFail := stacklessThrown, initState := (),
    eval := fun s _ => (s, none) }

/-- A run in which the user froze the output array. -/
def frozenRun : RunSpec Unit :=
  { throws := none, freezesOutput := true, tamperFrames := ["    at vm.js:9:1"],
    normFail := stacklessThrown, initState := (),
    eval := fun s _ => (s, none) }

/-- A run aborted by the executor's timeout. -/
def timedOutRun : RunSpec Unit :=
  { throws := some (timeoutThrown ["    at vm.js:2:1"]), freezesOutput := false,
    tamperFrames := [], normFail := stacklessThrown, initState := (),
    eval := fun s _ => (s, none) }

/-- Outcome record of `okAssertion` under `demoRun`. -/
def demoRecord : TestDetails :=
  { id := 1, assertion := "assert.ok(max(1,2) == 2)", is_public := true,
    passed := true, error := none }

/-- Outcome record of `okAssertion2` under `demoRun`. -/
def demoRecord2 : TestDetails :=
  { id := 2, assertion := "assert.ok(max(0,3) == 3)", is_public := false,
    passed := true, error := none }

/-- The outcome list `demoRun` produces on the two demo assertions. -/
def demoTests : List TestDetails := [demoRecord, demoRecord2]

/-- The structured output of that invocation. -/
def demoOutput : Output :=
  { compilation_errors := none, error := none, tests := some demoTests }

/-- The opening-parenthesis character. -/
def parenChar : Char := Char.ofNat 40

/-- Text of a call expression before its argument list. -/
def calleeOfL : List Char → List Char
  | [] => []
  | c :: cs => if c == parenChar then [] else c :: calleeOfL cs

/-- The callee expression of a call-expression text. -/
def calleeOf (t : String) : String := String.mk (calleeOfL t.data)

/-- First stack line of the `TypeError` the engine raises when a call
target is not a function: the message quotes the failing callee
expression verbatim (platform behaviour — V8 builds such messages from
the expression text that was evaluated). -/
def calleeNotFunctionLine (callee : String) : String :=
  "TypeError: " ++ callee ++ " is not a function"

/-- The thrown `TypeError` for a missing method, with an engine stack
frame below the message line. -/
def typeErrorThrown (callee : String) : Thrown :=
  { isAssertErr := false,
    stack := some [calleeNotFunctionLine callee, "    at vm.js:5:1"],
    expected := JsValue.undef, actual := JsValue.undef }

/-- Sandbox behaviour of a submission whose assertion calls a method
the assertion library does not provide (for instance `assert.foo(1)`):
evaluating the transformed call expression raises the engine's
`TypeError` naming the callee — a message that depends on the evaluated
text, and hence on the harness-generated identifier spliced into it. -/
def evalMethodMissing : Unit → String → Unit × Option Thrown :=
  fun _ t => ((), some (typeErrorThrown (calleeOf t)))

/-- An assertion invoking a method the library does not have. -/
def fooAssertion : Assertion :=
  { id := 1, assertion := "assert.foo(1)", is_public := true }

/-- The run of that submission: user top level is fine, every assertion
text raises the callee-quoting `TypeError`. -/
def methodMissingRun : RunSpec Unit :=
  { throws := none, freezesOutput := false, tamperFrames := [],
    normFail := stacklessThrown, initState := (), eval := evalMethodMissing }

/-- An `AssertionError` with array/number operands, as caught by a
fragment. -/
def assertFailThrown : Thrown :=
  { isAssertErr := true,
    stack := some ["AssertionError [ERR_ASSERTION]: Expected values to be strictly equal:",
                   "    at vm.js:7:3"],
    expected := JsValue.jarr [JsValue.jnum 1, JsValue.jnum 2],
    actual := JsValue.jnum 3 }

/-! ## Helper lemmas -/

/-- A list starts with itself (followed by anything). -/
theorem startsWithL_append_self (p y : List Char) : startsWithL p (p ++ y) = true := by
  induction p with
  | nil => rfl
  | cons c cs ih => simp [startsWithL, ih]

/-- A list that starts with the pattern contains it. -/
theorem containsSubL_of_starts (p l : List Char) (h : startsWithL p l = true) :
    containsSubL p l = true := by
  cases l with
  | nil => simpa [containsSubL] using h
  | cons c cs => simp [containsSubL, h]

/-- Containment is preserved by prepending. -/
theorem containsSubL_append_left (p x y : List Char) (h : containsSubL p y = true) :
    containsSubL p (x ++ y) = true := by
  induction x with
  | nil => simpa using h
  | cons c cs ih => simp [containsSubL, ih]

/-- String-level: containment is preserved by prepending. -/
theorem containsSub_append_right (x y pat : String) (h : containsSub y pat = true) :
    containsSub (x ++ y) pat = true := by
  unfold containsSub at h ⊢
  rw [String.data_append]
  exact containsSubL_append_left _ _ _ h

/-- A string beginning with the pattern contains it. -/
theorem containsSub_self_append (pat y : String) : containsSub (pat ++ y) pat = true := by
  unfold containsSub
  rw [String.data_append]
  exact containsSubL_of_starts _ _ (startsWithL_append_self _ _)

/-- Fields of a recorded outcome: the record carries the assertion's own
data, and the `error` field is set exactly on failure. -/
theorem fragmentResult_ok_fields {σ : Type} (eval : σ → String → σ × Option Thrown)
    (nf : Thrown) (ident : String) (s : σ) (a : Assertion) (q : σ × TestDetails)
    (h : fragmentResult eval nf ident s a = Except.ok q) :
    q.2.id = a.id ∧ q.2.assertion = a.assertion ∧ q.2.is_public = a.is_public ∧
      (q.2.error.isSome = true ↔ q.2.passed = false) := by
  unfold fragmentResult at h
  split at h
  · injection h with h'
    subst h'
    simp
  · split at h
    · injection h with h'
      subst h'
      simp
    · cases h

/-- Shape of a completed fragment run: ids are recorded in input order
after the initial contents of the output array, and every record obeys
the error/passed discipline (or was already in the array). -/
theorem runFragments_ok_spec {σ : Type} (eval : σ → String → σ × Option Thrown)
    (nf : Thrown) (ident : String) (as : List Assertion) :
    ∀ (s : σ) (out : List TestDetails) (p : σ × List TestDetails),
      runFragments eval nf ident s out as = Except.ok p →
      p.2.map TestDetails.id = out.map TestDetails.id ++ as.map Assertion.id ∧
      ∀ r ∈ p.2, r ∈ out ∨ (r.error.isSome = true ↔ r.passed = false) := by
  induction as with
  | nil =>
    intro s out p h
    simp only [runFragments] at h
    injection h with h'
    subst h'
    exact ⟨by simp, fun r hr => Or.inl hr⟩
  | cons a rest ih =>
    intro s out p h
    simp only [runFragments] at h
    cases hfr : fragmentResult eval nf ident s a with
    | error t => rw [hfr] at h; cases h
    | ok q =>
      rw [hfr] at h
      obtain ⟨hmap, hmem⟩ := ih q.1 (indexAppend out q.2) p h
      obtain ⟨hid, -, -, herr⟩ := fragmentResult_ok_fields eval nf ident s a q hfr
      refine ⟨?_, ?_⟩
      · rw [hmap]
        simp [indexAppend, hid]
      · intro r hr
        rcases hmem r hr with hin | hinv
        · rcases (by simpa [indexAppend] using hin : r ∈ out ∨ r = q.2) with h1 | h1
          · exact Or.inl h1
          · subst h1
            exact Or.inr herr
        · exact Or.inr hinv

/-- Inversion: a `tests` output comes from a successful program run. -/
theorem harnessOutput_tests_inv {σ : Type} (useJs : Bool) (comp : CompilationResult)
    (rs : RunSpec σ) (ident : String) (as : List Assertion) (o : Output)
    (ts : List TestDetails) (h : harnessOutput useJs comp rs ident as = some o)
    (ht : o.tests = some ts) : runProgram rs ident as = Except.ok ts := by
  unfold harnessOutput at h
  split at h
  · injection h with h'
    subst h'
    simp at ht
  · split at h
    · rename_i ts' heq
      injection h with h'
      subst h'
      injection ht with ht'
      subst ht'
      exact heq
    · rename_i t heq
      split at h
      · injection h with h'
        subst h'
        simp at ht
      · cases h

/-- Inversion: a successful program run is a completed fragment run
starting from the empty output array. -/
theorem runProgram_ok_inv {σ : Type} (rs : RunSpec σ) (ident : String)
    (as : List Assertion) (ts : List TestDetails)
    (h : runProgram rs ident as = Except.ok ts) :
    ∃ p, runFragments rs.eval rs.normFail ident rs.initState [] as = Except.ok p ∧
      p.2 = ts := by
  unfold runProgram at h
  split at h
  · cases h
  · split at h
    · cases h
    · cases hrf : runFragments rs.eval rs.normFail ident rs.initState [] as with
      | error t =>
        rw [hrf] at h
        simp [Except.map] at h
      | ok p =>
        rw [hrf] at h
        simp only [Except.map] at h
        injection h with h'
        exact ⟨p, rfl, h'⟩

/-! ## Claims -/

/-- Claim C1, counterexample: with valid input (raw-JS mode, a user
program whose top level throws a primitive such as `throw 42`), the
harness emits none of the three output shapes — the outer catch applies
`prettyPrintError` to a stackless value, the normalizer itself throws,
and the process dies before any `console.log`. -/
theorem output_shape_crash_cex :
    harnessOutput true demoComp crashRun ("X") [] = none := rfl

/-- Claim C1, amended: whenever the harness does emit a structured
output, exactly one of the three shapes `compilation_errors` / `error` /
`tests` is populated. -/
theorem output_shape_exactly_one {σ : Type} (useJs : Bool) (comp : CompilationResult)
    (rs : RunSpec σ) (ident : String) (as : List Assertion) (o : Output)
    (h : harnessOutput useJs comp rs ident as = some o) : shapeCount o = 1 := by
  unfold harnessOutput at h
  split at h
  · injection h with h'
    subst h'
    rfl
  · split at h
    · injection h with h'
      subst h'
      rfl
    · split at h
      · injection h with h'
        subst h'
        rfl
      · cases h

/-- Claim C1, witness: a concrete successful invocation populates
exactly one shape. -/
theorem output_shape_exactly_one_witness : shapeCount demoOutput = 1 :=
  output_shape_exactly_one false demoComp demoRun ("XLIBQRSTUV")
    [okAssertion, okAssertion2] demoOutput rfl

/-- Claim C2: when an invocation produces a `tests` result for an
assertion list with unique ids, the result has exactly as many records
as there are assertions and lists the assertion ids in input order. -/
theorem tests_order_preserved {σ : Type} (useJs : Bool) (comp : CompilationResult)
    (rs : RunSpec σ) (ident : String) (as : List Assertion) (o : Output)
    (ts : List TestDetails) (huniq : (as.map Assertion.id).Nodup)
    (h : harnessOutput useJs comp rs ident as = some o) (ht : o.tests = some ts) :
    ts.length = as.length ∧ ts.map TestDetails.id = as.map Assertion.id := by
  have hrp := harnessOutput_tests_inv useJs comp rs ident as o ts h ht
  obtain ⟨p, hrf, hp⟩ := runProgram_ok_inv rs ident as ts hrp
  obtain ⟨hmap, -⟩ := runFragments_ok_spec rs.eval rs.normFail ident as rs.initState [] p hrf
  subst hp
  refine ⟨?_, by simpa using hmap⟩
  have := congrArg List.length hmap
  simpa using this

/-- Claim C2, witness: the demo invocation returns one record per
assertion, ids in input order. -/
theorem tests_order_preserved_witness :
    demoTests.length = ([okAssertion, okAssertion2] : List Assertion).length ∧
    demoTests.map TestDetails.id = ([okAssertion, okAssertion2] : List Assertion).map Assertion.id :=
  tests_order_preserved false demoComp demoRun ("XLIBQRSTUV") [okAssertion, okAssertion2]
    demoOutput demoTests (by decide) rfl rfl

/-- Claim C3, counterexample: the harness rewrites only the FIRST
occurrence of `assert` (`String.prototype.replace` with a string
pattern), so an assertion mentioning `assert` twice still reaches the
user-controllable name: an interference pair that only affects
expressions still mentioning `assert` flips the recorded `passed` of
`cexAssertion` from `false` (unbound name raises) to `true` (user's
non-throwing stub), even though the harness identifier is `assert`-free.
Hence the claim as stated is false. -/
theorem isolation_claim_refuted : ¬ IsolationClaim := by
  intro h
  have hag : EvalAgrees evalClean evalShadowed := by
    intro s t ht
    simp [evalClean, evalShadowed, ht]
  have hc := h Unit evalClean evalShadowed hag refErrThrown ("XLIBQRSTUV") (by decide)
    () cexAssertion
  rw [show fragmentPassed evalClean refErrThrown ("XLIBQRSTUV") () cexAssertion
        = some false from by decide,
      show fragmentPassed evalShadowed refErrThrown ("XLIBQRSTUV") () cexAssertion
        = some true from by decide] at hc
  cases hc

/-- Claim C3, amended: interference that only affects expressions whose
text still mentions `assert` cannot change any recorded outcome,
provided every assertion's transformed text (first occurrence replaced
by the harness identifier) no longer contains `assert` — i.e. the
original text mentioned the library name at most once and the
replacement introduced no new occurrence. -/
theorem isolation_single_occurrence {σ : Type} (e1 e2 : σ → String → σ × Option Thrown)
    (hag : EvalAgrees e1 e2) (nf : Thrown) (ident : String) (as : List Assertion) :
    ∀ (s : σ) (out : List TestDetails),
      (∀ a ∈ as, containsSub (transformAssertion ident a.assertion) ("assert") = false) →
      runFragments e1 nf ident s out as = runFragments e2 nf ident s out as := by
  induction as with
  | nil =>
    intro s out hclean
    rfl
  | cons a rest ih =>
    intro s out hclean
    have he : e1 s (transformAssertion ident a.assertion)
        = e2 s (transformAssertion ident a.assertion) :=
      hag s _ (hclean a (List.mem_cons_self a rest))
    simp only [runFragments]
    rw [show fragmentResult e1 nf ident s a = fragmentResult e2 nf ident s a from by
      unfold fragmentResult
      rw [he]]
    cases fragmentResult e2 nf ident s a with
    | error t => rfl
    | ok q => exact ih q.1 (indexAppend out q.2) (fun b hb => hclean b (List.mem_cons_of_mem a hb))

/-- Claim C3, witness for the amended statement: a single-occurrence
assertion is graded identically by the clean and the interfered
submission. -/
theorem isolation_single_occurrence_witness :
    runFragments evalClean refErrThrown ("XLIBQRSTUV") () [] [okAssertion]
      = runFragments evalShadowed refErrThrown ("XLIBQRSTUV") () [] [okAssertion] :=
  isolation_single_occurrence evalClean evalShadowed
    (fun s t ht => by simp [evalClean, evalShadowed, ht]) refErrThrown ("XLIBQRSTUV")
    [okAssertion] () [] (by decide)

/-- Claim C4: if the user froze the output array (and the top level did
not itself throw), the run aborts with the tamper error before any
fragment executes — the result does not depend on the assertion list —
and the invocation reports an `error` output whose message starts with
the fixed text `Error: Internal error`, with no `tests` entries. -/
theorem tamper_short_circuit {σ : Type} (useJs : Bool) (comp : CompilationResult)
    (rs : RunSpec σ) (ident : String) (as : List Assertion) (f : String) (rest : List String)
    (hcomp : useJs = true ∨ comp.compilationErrors = [])
    (hthrow : rs.throws = none) (hfrozen : rs.freezesOutput = true)
    (hframes : rs.tamperFrames = f :: rest) :
    runProgram rs ident as = Except.error (tamperThrown rs.tamperFrames) ∧
    runProgram rs ident as = runProgram rs ident [] ∧
    harnessOutput useJs comp rs ident as =
      some { compilation_errors := none,
             error := some (internalErrorMsg ++ (" " ++ prettyLine f)),
             tests := none } := by
  have hrp : ∀ (as' : List Assertion),
      runProgram rs ident as' = Except.error (tamperThrown rs.tamperFrames) := by
    intro as'
    unfold runProgram
    rw [hthrow, hfrozen]
    simp
  have hnt : containsSub internalErrorMsg timeoutMarker = false := by decide
  refine ⟨hrp as, by rw [hrp as, hrp []], ?_⟩
  have hcond : (!useJs && !comp.compilationErrors.isEmpty) = false := by
    rcases hcomp with h | h
    · rw [h]
      rfl
    · rw [h]
      simp
  unfold harnessOutput
  rw [hcond, hrp as, hframes]
  simp [tamperThrown, prettyPrintError, hnt]

/-- Claim C4, witness: a concrete frozen-array run yields the internal
error output with no test entries. -/
theorem tamper_short_circuit_witness :
    harnessOutput true demoComp frozenRun ("XLIBQRSTUV") [okAssertion]
      = some { compilation_errors := none,
               error := some (internalErrorMsg ++ (" " ++ prettyLine ("    at vm.js:9:1"))),
               tests := none } :=
  (tamper_short_circuit true demoComp frozenRun ("XLIBQRSTUV") [okAssertion]
    ("    at vm.js:9:1") [] (Or.inl rfl) rfl rfl rfl).2.2

/-- Claim C5: a run aborted by the executor's timeout reports exactly
the fixed first stack line of the timeout error — independent of the
frame lines — and that message contains neither of the normalizer's
location phrases (`on line`, `at position`). -/
theorem timeout_message_location_free {σ : Type} (useJs : Bool) (comp : CompilationResult)
    (rs : RunSpec σ) (ident : String) (as : List Assertion) (f : String) (rest : List String)
    (hcomp : useJs = true ∨ comp.compilationErrors = [])
    (hthrow : rs.throws = some (timeoutThrown (f :: rest))) :
    harnessOutput useJs comp rs ident as =
      some { compilation_errors := none, error := some timeoutMsgLine, tests := none } ∧
    containsSub timeoutMsgLine ("on line ") = false ∧
    containsSub timeoutMsgLine (", at position ") = false := by
  refine ⟨?_, by decide, by decide⟩
  have hcond : (!useJs && !comp.compilationErrors.isEmpty) = false := by
    rcases hcomp with h | h
    · rw [h]
      rfl
    · rw [h]
      simp
  have hrp : runProgram rs ident as = Except.error (timeoutThrown (f :: rest)) := by
    unfold runProgram
    rw [hthrow]
  have hto : containsSub timeoutMsgLine timeoutMarker = true := by decide
  unfold harnessOutput
  rw [hcond, hrp]
  simp [timeoutThrown, prettyPrintError, hto, String.append_empty]

/-- Claim C5, witness: a concrete timed-out run reports the bare
timeout message. -/
theorem timeout_message_location_free_witness :
    harnessOutput true demoComp timedOutRun ("X") [okAssertion]
      = some { compilation_errors := none, error := some timeoutMsgLine, tests := none } :=
  (timeout_message_location_free true demoComp timedOutRun ("X") [okAssertion]
    ("    at vm.js:2:1") [] (Or.inl rfl) rfl).1

/-- Claim C6: for an assertion-failure exception that carries a stack,
`prettyPrintAssertionError` returns `<first stack line> expected value
<json(expected)>, but got <json(actual)>`, with both operands rendered
by the structural JSON serializer. -/
theorem assertion_failure_format (t : Thrown) (m : String) (rest : List String)
    (hst : t.stack = some (m :: rest)) :
    prettyPrintAssertionError t =
      Except.ok (m ++ " expected value " ++ jsonConcat t.expected
        ++ ", but got " ++ jsonConcat t.actual) := by
  unfold prettyPrintAssertionError
  rw [hst]

/-- Claim C6, witness: an array operand renders as `[1,2]` (structural
JSON), not as its string coercion `1,2`. -/
theorem assertion_failure_format_witness :
    prettyPrintAssertionError assertFailThrown =
      Except.ok ("AssertionError [ERR_ASSERTION]: Expected values to be strictly equal: expected value [1,2], but got 3") := by
  rw [assertion_failure_format assertFailThrown
    ("AssertionError [ERR_ASSERTION]: Expected values to be strictly equal:")
    (["    at vm.js:7:3"]) rfl]
  rfl

/-- Claim C7: in every record of a `tests` result, the `error` field is
present exactly when `passed` is `false`. -/
theorem error_iff_failed {σ : Type} (useJs : Bool) (comp : CompilationResult)
    (rs : RunSpec σ) (ident : String) (as : List Assertion) (o : Output)
    (ts : List TestDetails) (h : harnessOutput useJs comp rs ident as = some o)
    (ht : o.tests = some ts) (r : TestDetails) (hr : r ∈ ts) :
    r.error.isSome = true ↔ r.passed = false := by
  have hrp := harnessOutput_tests_inv useJs comp rs ident as o ts h ht
  obtain ⟨p, hrf, hp⟩ := runProgram_ok_inv rs ident as ts hrp
  obtain ⟨-, hmem⟩ := runFragments_ok_spec rs.eval rs.normFail ident as rs.initState [] p hrf
  subst hp
  rcases hmem r hr with hin | hinv
  · simp at hin
  · exact hinv

/-- Claim C7, witness: a passing record of the demo run has no error
field. -/
theorem error_iff_failed_witness :
    demoRecord.error.isSome = true ↔ demoRecord.passed = false :=
  error_iff_failed false demoComp demoRun ("XLIBQRSTUV") [okAssertion, okAssertion2]
    demoOutput demoTests rfl rfl demoRecord (by decide)

/-- Claim C8, counterexample: the same submission and assertion list
(`assert.foo(1)`, a method the library does not provide), graded under
two different harness identifiers.  The engine's `TypeError` quotes the
transformed callee `<identifier>.foo`, and `prettyPrintError` keeps
that first stack line verbatim, so the `error` field embeds the
identifier value: the two runs' outputs differ, and the identifier is
observable in the output — refuting the claim as stated. -/
theorem identifier_observability_cex :
    harnessOutput true demoComp methodMissingRun ("AAAABBBBCCCCDDDDEEEE") [fooAssertion]
      = some { compilation_errors := none, error := none,
               tests := some [{ id := 1, assertion := "assert.foo(1)", is_public := true,
                                passed := false,
                                error := some ("TypeError: AAAABBBBCCCCDDDDEEEE.foo is not a function on line 4, at position 1") }] } ∧
    harnessOutput true demoComp methodMissingRun ("AAAABBBBCCCCDDDDEEEE") [fooAssertion]
      ≠ harnessOutput true demoComp methodMissingRun ("FFFFGGGGHHHHIIIIJJJJ") [fooAssertion] ∧
    containsSub ("TypeError: AAAABBBBCCCCDDDDEEEE.foo is not a function on line 4, at position 1")
      ("AAAABBBBCCCCDDDDEEEE") = true := by
  refine ⟨rfl, by decide, by decide⟩

/-- Claim C8, amended: identifier renaming alone cannot change the
output — two runs with identical `sourceText` and `assertions` whose
sandboxes behave identically on the correspondingly transformed
assertion texts (in particular, no thrown value quotes the evaluated
expression) produce identical structured output.  The harness-built
record fields (`id`, the verbatim original assertion text, `is_public`)
never depend on the identifier; only engine-generated error messages
can leak it, as the counterexample shows. -/
theorem output_invariant_under_identifier_change {σ : Type} (useJs : Bool) (comp : CompilationResult)
    (rs1 rs2 : RunSpec σ) (i1 i2 : String) (as : List Assertion)
    (hthrows : rs1.throws = rs2.throws) (hfr : rs1.freezesOutput = rs2.freezesOutput)
    (htf : rs1.tamperFrames = rs2.tamperFrames) (hnf : rs1.normFail = rs2.normFail)
    (hs : rs1.initState = rs2.initState)
    (heval : ∀ (s : σ) (t : String),
      rs1.eval s (transformAssertion i1 t) = rs2.eval s (transformAssertion i2 t)) :
    harnessOutput useJs comp rs1 i1 as = harnessOutput useJs comp rs2 i2 as := by
  have hfrag : ∀ (as' : List Assertion) (s : σ) (out : List TestDetails),
      runFragments rs1.eval rs2.normFail i1 s out as'
        = runFragments rs2.eval rs2.normFail i2 s out as' := by
    intro as'
    induction as' with
    | nil =>
      intro s out
      rfl
    | cons a rest ih =>
      intro s out
      simp only [runFragments]
      rw [show fragmentResult rs1.eval rs2.normFail i1 s a
            = fragmentResult rs2.eval rs2.normFail i2 s a from by
        unfold fragmentResult
        rw [heval s a.assertion]]
      cases fragmentResult rs2.eval rs2.normFail i2 s a with
      | error t => rfl
      | ok q => exact ih q.1 (indexAppend out q.2)
  have hprog : runProgram rs1 i1 as = runProgram rs2 i2 as := by
    unfold runProgram
    rw [hthrows, hfr, htf, hnf, hs, hfrag as rs2.initState []]
  unfold harnessOutput
  rw [hprog]

/-- Claim C8, witness for the amended statement: a run whose sandbox
behaviour does not depend on the evaluated text, graded under two
different identifiers, yields the same output. -/
theorem output_invariant_under_identifier_change_witness :
    harnessOutput false demoComp demoRun ("XLIBQRSTUVAAAA") [okAssertion]
      = harnessOutput false demoComp demoRun ("YQWERTYIOPBBBB") [okAssertion] :=
  output_invariant_under_identifier_change false demoComp demoRun demoRun
    ("XLIBQRSTUVAAAA") ("YQWERTYIOPBBBB") [okAssertion]
    rfl rfl rfl rfl rfl (fun _ _ => rfl)

/-- Claim C9, counterexample: both normalizers throw on a thrown value
without a string `stack` (for instance `throw 42`): there is no
generic-fallback path in the code. -/
theorem normalizers_throw_cex :
    prettyPrintError stacklessThrown.stack = Except.error () ∧
    prettyPrintAssertionError stacklessThrown = Except.error () := ⟨rfl, rfl⟩

/-- Claim C9, amended: the normalizers are pure, but total only on
exceptions carrying a stack — `prettyPrintError` returns normally
exactly when the stack has at least two lines, and
`prettyPrintAssertionError` exactly when a stack line exists at all;
otherwise they raise instead of degrading to a fixed string. -/
theorem normalizers_totality_characterized (st : Option (List String)) (t : Thrown) :
    ((∃ r, prettyPrintError st = Except.ok r) ↔ ∃ m l rest, st = some (m :: l :: rest)) ∧
    ((∃ r, prettyPrintAssertionError t = Except.ok r) ↔ ∃ m rest, t.stack = some (m :: rest)) := by
  constructor
  · match st with
    | none => simp [prettyPrintError]
    | some [] => simp [prettyPrintError]
    | some [m] => simp [prettyPrintError]
    | some (m :: l :: rest) =>
      exact ⟨fun _ => ⟨m, l, rest, rfl⟩, fun _ => ⟨_, rfl⟩⟩
  · match ht : t.stack with
    | none => simp [prettyPrintAssertionError, ht]
    | some [] => simp [prettyPrintAssertionError, ht]
    | some (m :: rest) =>
      refine ⟨fun _ => ⟨m, rest, rfl⟩, fun _ => ⟨m ++ " expected value " ++ jsonConcat t.expected ++ ", but got " ++ jsonConcat t.actual, ?_⟩⟩
      simp [prettyPrintAssertionError, ht]

/-- Claim C10: each generated fragment appends its record with the
index-assignment statement `out[out.length] = rec` — the statement text
occurs verbatim in the fragment, none of the harness-owned template
pieces contains a `.push(` call, and the semantics of index assignment
is a plain append regardless of any user replacement of
`Array.prototype.push`. -/
theorem append_by_index_assignment (outId objId aErrId ident : String) (a : Assertion) :
    containsSub (assertionFragmentText outId objId aErrId ident a)
      (appendStmtText outId objId) = true ∧
    (∀ p ∈ fragLiteralPieces, containsSub p (".push(") = false) ∧
    ∀ (pushImpl : List TestDetails → TestDetails → List TestDetails)
      (out : List TestDetails) (r : TestDetails),
      appendStmtSem pushImpl out r = indexAppend out r ∧ indexAppend out r = out ++ [r] := by
  refine ⟨?_, by decide, fun pushImpl out r => ⟨rfl, rfl⟩⟩
  unfold assertionFragmentText
  exact containsSub_append_right _ _ _ (containsSub_self_append _ _)

end JsHarness
